import Mathlib

/-!
Verification development for the vuegraf collection pipeline
(src/src/vuegraf/vuegraf.py, version 1.7.2).

Shallow embedding conventions:
* Timestamps are whole seconds since the epoch, as `Int`.  The source works
  with timezone-aware `datetime` values; `replace(hour=0, minute=0, second=0,
  microsecond=0)` on a UTC datetime is flooring to a day boundary
  (`dayFloor`) and `replace(hour=23, minute=59, second=59, microsecond=0)` is
  `dayEnd`.  `astimezone(pytz.UTC)` does not change the instant and is the
  identity here.  Sub-second precision is dropped (`microsecond=0` is applied
  at every site the claims touch).
* Numeric usage values are exact rationals (`ℚ`); Python float rounding is
  not modelled, the claims are about the arithmetic content of the
  conversions.
* Python dicts are modelled as `Nat → Option _` maps, `None`-able values as
  `Option`, and exceptions as `Option`/explicit fallback branches, matching
  the `try`/`except` structure of the source.
* The cloud API client (PyEmVue) is an outside collaborator; its responses
  (`get_chart_usage` series, device lists) are inputs to the embedded
  functions.
-/

/-! ## Calendar arithmetic (datetime.replace on UTC datetimes) -/

def daySecs : Int := 86400

/-- `t.replace(hour=0, minute=0, second=0, microsecond=0)` on a UTC
datetime: floor to the enclosing day boundary. -/
def dayFloor (t : Int) : Int := t / daySecs * daySecs

/-- `t.replace(hour=23, minute=59, second=59, microsecond=0)` on a UTC
datetime: last whole second of the enclosing day. -/
def dayEnd (t : Int) : Int := dayFloor t + 86399

/-! ## Python `int(...)` and list indexing

`lookupChannelName` calls `int(chan.channel_num)` inside `try`, and indexes
`device['channels'][num - 1]`.  `pyInt` models Python `int` on a string
(strip whitespace, optional sign, decimal digits; exotic forms such as
underscore separators or non-ASCII digits do not occur for channel numbers
and are not modelled).  `pyIndex` models Python list indexing including the
negative end-relative form; `none` is an `IndexError`. -/

def stripSpaces (cs : List Char) : List Char :=
  ((cs.dropWhile (fun c => c.isWhitespace)).reverse.dropWhile
      (fun c => c.isWhitespace)).reverse

def readDigits (cs : List Char) : Option Nat :=
  if cs.isEmpty then none
  else if cs.all Char.isDigit then
    some (cs.foldl (fun n c => 10 * n + (c.toNat - 48)) 0)
  else none

def pyInt (s : String) : Option Int :=
  match stripSpaces s.data with
  | '-' :: rest => (readDigits rest).map (fun n => -(n : Int))
  | '+' :: rest => (readDigits rest).map (fun n => (n : Int))
  | cs => (readDigits cs).map (fun n => (n : Int))

def pyIndex (xs : List String) (i : Int) : Option String :=
  if 0 ≤ i then xs[i.toNat]?
  else if -i ≤ (xs.length : Int) then xs[xs.length - (-i).toNat]?
  else none

/-! ## Account state and channel-name resolution -/

/-- One entry of the user configuration's `account['devices']` list; the
source guards each key with `'name' in device` / `'channels' in device`,
so both fields are optional. -/
structure ConfigDevice where
  name : Option String
  channels : Option (List String)

/-- The per-account state read by the name-resolution functions.
`deviceIdMap` is the current cache (`account['deviceIdMap']`, device_gid ↦
`device.device_name`); `populatedMap` is the cache that `populateDevices`
(re)builds from the API's `get_devices()` response, so re-population
replaces `deviceIdMap` by `populatedMap`. -/
structure Account where
  name : String
  devices : Option (List ConfigDevice)
  deviceIdMap : Nat → Option String
  populatedMap : Nat → Option String

/-- The cache in effect after the `if device_gid not in account['deviceIdMap']:
populateDevices(account)` prelude shared by `lookupDeviceName` and
`lookupChannelName`. -/
def mapAfterMiss (a : Account) (gid : Nat) : Nat → Option String :=
  if (a.deviceIdMap gid).isNone then a.populatedMap else a.deviceIdMap

/-- `lookupDeviceName(account, device_gid)`: re-populate on a cache miss,
then return the cached display name, falling back to `'{}'.format(gid)`. -/
def lookupDeviceName (a : Account) (gid : Nat) : String :=
  match mapAfterMiss a gid gid with
  | some n => n
  | none => toString gid

/-- The device name `lookupChannelName` resolves: it first re-populates on a
miss (line 88-89), then calls `lookupDeviceName` on the updated account. -/
def resolvedDeviceName (a : Account) (gid : Nat) : String :=
  lookupDeviceName { a with deviceIdMap := mapAfterMiss a gid } gid

/-- The override search loop of `lookupChannelName`: the first configured
device whose `name` equals `deviceName` and whose `channels` list has at
least `num` entries (a name match with a missing or short `channels` list
does not `break`; the loop keeps searching). -/
def findOverrideList (ds : List ConfigDevice) (deviceName : String)
    (num : Int) : Option (List String) :=
  match ds with
  | [] => none
  | d :: rest =>
    match d.name, d.channels with
    | some n, some cs =>
      if n = deviceName ∧ num ≤ (cs.length : Int) then some cs
      else findOverrideList rest deviceName num
    | _, _ => findOverrideList rest deviceName num

/-- `lookupChannelName(account, chan)` for a channel with id `gid` and
number string `channel_num`.  The `try` block is `pyInt` plus the override
search; an `IndexError` from `channels[num - 1]` (possible only for a
non-positive `num`, via Python's negative indexing) falls into the bare
`except`, whose `'1,2,3'` test cannot fire because the number parsed, so
the base name survives. -/
def lookupChannelName (a : Account) (gid : Nat) (channel_num : String) :
    String :=
  match pyInt channel_num with
  | some num =>
    match a.devices with
    | some ds =>
      match findOverrideList ds (resolvedDeviceName a gid) num with
      | some cs =>
        ((pyIndex cs (num - 1)).getD
          (resolvedDeviceName a gid ++ "-" ++ channel_num))
      | none => resolvedDeviceName a gid ++ "-" ++ channel_num
    | none => resolvedDeviceName a gid ++ "-" ++ channel_num
  | none =>
    if channel_num = "1,2,3" then resolvedDeviceName a gid
    else resolvedDeviceName a gid ++ "-" ++ channel_num

/-! ## Data points -/

/-- The `detailed` tag of a point: the source passes `False`/`True`
(booleans) for live and per-second points, and the strings `'Hour'`/`'Day'`
for rollup and history points. -/
inductive DetailTag where
  | tagOfBool : Bool → DetailTag
  | tagOfStr : String → DetailTag
deriving DecidableEq, Repr

/-- One `energy_usage` point (both Influx v1 and v2 forms carry exactly
these fields).  The `device_name` tag holds the resolved channel name, the
`usage` field holds watts.  `time` is optional because the source would pass
`None` through if an aggregate rollup ever ran without a window start; all
call sites that the claims touch supply a concrete time. -/
structure DataPoint where
  account_name : String
  device_name : String
  detailed : DetailTag
  usage : ℚ
  time : Option Int
deriving DecidableEq, Repr

/-- `createDataPoint(account, chanName, watts, timestamp, detailed)`. -/
def createDataPoint (accountName chanName : String) (watts : ℚ)
    (timestamp : Option Int) (detailed : DetailTag) : DataPoint :=
  ⟨accountName, chanName, detailed, watts, timestamp⟩

/-! ## extractDataPoints

The per-channel body of `extractDataPoints` (lines 149-202).  The API's
`get_chart_usage` responses are supplied by an oracle in the context; every
chart call the source issues is also recorded as a `ChartQuery` so that
"never issues a query" claims are about the query log, not only about the
absence of points. -/

inductive Scale where
  | second | minute | hour | day
deriving DecidableEq, Repr

structure ChartQuery where
  device_gid : Nat
  channel_num : String
  scale : Scale
  start : Int
  stop : Int
deriving DecidableEq, Repr

/-- The ambient state `extractDataPoints` reads from the enclosing scope:
the current account, the tick's `stopTime`, the detail checkpoint
`detailedStartTime`, the scheduling flags, and the API oracle for
`get_chart_usage` (keyed by channel identity, scale and window). -/
structure ExtractCtx where
  account : Account
  stopTime : Int
  detailedStartTime : Int
  collectDetails : Bool
  detailedSecondsEnabled : Bool
  chartUsage : Scale → Nat → String → Int → Int → List (Option ℚ)

def excludedDetailChannelNumbers : List String := ["Balance", "TotalUsage"]

/-- The seconds-detail emission loop (lines 169-176).  `index` starts at 0
and — exactly as in the source — is incremented only after a non-null entry,
because the `continue` for a null entry skips the `index += 1` line. -/
def secondsLoop (accountName chanName : String) (detailedStartTime : Int) :
    List (Option ℚ) → Nat → List DataPoint
  | [], _ => []
  | none :: rest, index =>
      secondsLoop accountName chanName detailedStartTime rest index
  | some u :: rest, index =>
      createDataPoint accountName chanName (60 * 60 * 1000 * u)
          (some (detailedStartTime + (index : Int))) (DetailTag.tagOfBool true)
        :: secondsLoop accountName chanName detailedStartTime rest (index + 1)

/-- The historical hourly emission loop (lines 183-190); same compacted
`index` discipline as `secondsLoop`. -/
def hoursLoop (accountName chanName : String) (historyStartTime : Int) :
    List (Option ℚ) → Nat → List DataPoint
  | [], _ => []
  | none :: rest, index =>
      hoursLoop accountName chanName historyStartTime rest index
  | some u :: rest, index =>
      createDataPoint accountName chanName (u * 1000)
          (some (historyStartTime + 3600 * (index : Int)))
          (DetailTag.tagOfStr "Hour")
        :: hoursLoop accountName chanName historyStartTime rest (index + 1)

/-- The historical daily emission loop (lines 193-202): timestamp is
`historyStartTime + timedelta(days=index-1)` pushed to 23:59:59 of its day
(then `astimezone(pytz.UTC)`, an identity on the instant); same compacted
`index` discipline. -/
def daysLoop (accountName chanName : String) (historyStartTime : Int) :
    List (Option ℚ) → Nat → List DataPoint
  | [], _ => []
  | none :: rest, index =>
      daysLoop accountName chanName historyStartTime rest index
  | some u :: rest, index =>
      createDataPoint accountName chanName (u * 1000)
          (some (dayEnd (historyStartTime + 86400 * ((index : Int) - 1))))
          (DetailTag.tagOfStr "Day")
        :: daysLoop accountName chanName historyStartTime rest (index + 1)

/-- The aggregate-usage branch (lines 151-160): one live point
(`watts = float(60 * 1000) * kwhUsage`, timestamp `stopTime`, tag `False`)
when no point type is given, one rollup point (`watts = kwhUsage * 1000`,
timestamp `historyStartTime`, tag the point-type string) for `'Day'` or
`'Hour'`, nothing for any other point type or a null usage. -/
def aggPoints (accountName chanName : String) (stopTime : Int)
    (pointType : Option String) (historyStartTime : Option Int)
    (kwhUsage : Option ℚ) : List DataPoint :=
  match kwhUsage with
  | none => []
  | some u =>
    match pointType with
    | none =>
        [createDataPoint accountName chanName (60 * 1000 * u)
          (some stopTime) (DetailTag.tagOfBool false)]
    | some pt =>
        if pt = "Day" ∨ pt = "Hour" then
          [createDataPoint accountName chanName (u * 1000) historyStartTime
            (DetailTag.tagOfStr pt)]
        else []

/-- Everything `extractDataPoints` does for one channel after recursing into
its nested devices (lines 149-202): resolve the name, append the aggregate
point, then — unless the channel number is excluded — run the seconds-detail
query (only when details are due and this is not a history call) and the
two historical chart queries (only when both window bounds are given).
Returns the chart queries issued and the points appended, in source order. -/
def channelCollect (ctx : ExtractCtx) (pointType : Option String)
    (historyStartTime historyEndTime : Option Int) (gid : Nat)
    (channel_num : String) (kwhUsage : Option ℚ) :
    List ChartQuery × List DataPoint :=
  let chanName := lookupChannelName ctx.account gid channel_num
  let agg := aggPoints ctx.account.name chanName ctx.stopTime pointType
    historyStartTime kwhUsage
  if channel_num ∈ excludedDetailChannelNumbers then ([], agg)
  else
    let secPart : List ChartQuery × List DataPoint :=
      if ctx.collectDetails ∧ ctx.detailedSecondsEnabled ∧
          historyStartTime = none then
        ([⟨gid, channel_num, Scale.second, ctx.detailedStartTime,
            ctx.stopTime⟩],
         secondsLoop ctx.account.name chanName ctx.detailedStartTime
           (ctx.chartUsage Scale.second gid channel_num
             ctx.detailedStartTime ctx.stopTime) 0)
      else ([], [])
    let histPart : List ChartQuery × List DataPoint :=
      match historyStartTime, historyEndTime with
      | some h0, some h1 =>
          ([⟨gid, channel_num, Scale.hour, h0, h1⟩,
            ⟨gid, channel_num, Scale.day, h0, h1⟩],
           hoursLoop ctx.account.name chanName h0
               (ctx.chartUsage Scale.hour gid channel_num h0 h1) 0
             ++ daysLoop ctx.account.name chanName h0
               (ctx.chartUsage Scale.day gid channel_num h0 h1) 0)
      | _, _ => ([], [])
    (secPart.1 ++ histPart.1, agg ++ secPart.2 ++ histPart.2)

/-! The device/channel tree returned by the API: a device carries channels,
and a channel may carry nested sub-devices (`chan.nested_devices`).  A
channel is (device_gid, channel_num, usage, nested devices). -/
mutual
inductive UsageDevice where
  | mk : UsageChannels → UsageDevice
inductive UsageChannels where
  | nil : UsageChannels
  | cons : UsageChannel → UsageChannels → UsageChannels
inductive UsageChannel where
  | mk : Nat → String → Option ℚ → UsageDevices → UsageChannel
inductive UsageDevices where
  | nil : UsageDevices
  | cons : UsageDevice → UsageDevices → UsageDevices
end

/-! `extractDataPoints(device, usageDataPoints, pointType, historyStartTime,
historyEndTime)`: walk the device's channels in order; for each channel
first recurse into its nested devices (lines 145-147), then process the
channel itself via `channelCollect`.  The accumulator is made explicit as
the returned (queries, points) pair, concatenated in append order. -/
mutual
def extractDataPoints (ctx : ExtractCtx) (pointType : Option String)
    (historyStartTime historyEndTime : Option Int) (d : UsageDevice) :
    List ChartQuery × List DataPoint :=
  match d with
  | .mk chans =>
      extractFromChannels ctx pointType historyStartTime historyEndTime chans
def extractFromChannels (ctx : ExtractCtx) (pointType : Option String)
    (historyStartTime historyEndTime : Option Int) (cs : UsageChannels) :
    List ChartQuery × List DataPoint :=
  match cs with
  | .nil => ([], [])
  | .cons c rest =>
      let r1 := extractFromChannel ctx pointType historyStartTime
        historyEndTime c
      let r2 := extractFromChannels ctx pointType historyStartTime
        historyEndTime rest
      (r1.1 ++ r2.1, r1.2 ++ r2.2)
def extractFromChannel (ctx : ExtractCtx) (pointType : Option String)
    (historyStartTime historyEndTime : Option Int) (c : UsageChannel) :
    List ChartQuery × List DataPoint :=
  match c with
  | .mk gid channel_num kwhUsage nested =>
      let rn := extractFromDevices ctx pointType historyStartTime
        historyEndTime nested
      let rc := channelCollect ctx pointType historyStartTime historyEndTime
        gid channel_num kwhUsage
      (rn.1 ++ rc.1, rn.2 ++ rc.2)
def extractFromDevices (ctx : ExtractCtx) (pointType : Option String)
    (historyStartTime historyEndTime : Option Int) (ds : UsageDevices) :
    List ChartQuery × List DataPoint :=
  match ds with
  | .nil => ([], [])
  | .cons d rest =>
      let r1 := extractDataPoints ctx pointType historyStartTime
        historyEndTime d
      let r2 := extractFromDevices ctx pointType historyStartTime
        historyEndTime rest
      (r1.1 ++ r2.1, r1.2 ++ r2.2)
end

/-! ## History backfill windows (lines 362-377)

The loop
```
historyStartTime = (stopTime - timedelta(historyDays)).replace(hour=0, ...)
while historyStartTime <= stopTime:
    historyEndTime = min(historyStartTime + timedelta(20), stopTime)
    historyEndTime = historyEndTime.replace(hour=23, minute=59, second=59, microsecond=0)
    ... extractDataPoints(..., 'History', historyStartTime, historyEndTime)
    historyStartTime = (historyEndTime + timedelta(1)).replace(hour=0, ...)
```
terminates because each step advances the start by at least one day; the
`fuel` parameter bounds the iteration count (any fuel of at least
`historyDays / 20 + 2` reproduces the whole run) and every theorem below
holds for every fuel. -/

def histWindows (stopTime : Int) : Nat → Int → List (Int × Int)
  | 0, _ => []
  | fuel + 1, start =>
    if start ≤ stopTime then
      (start, dayEnd (min (start + 20 * 86400) stopTime)) ::
        histWindows stopTime fuel
          (dayFloor (dayEnd (min (start + 20 * 86400) stopTime) + 86400))
    else []

/-- The collection windows of a history backfill of `historyDays` days run
at a tick whose reference stop time is `stopTime`. -/
def backfillWindows (stopTime : Int) (historyDays : Nat) (fuel : Nat) :
    List (Int × Int) :=
  histWindows stopTime fuel (dayFloor (stopTime - (historyDays : Int) * 86400))

/-! ## The per-tick account loop (lines 319-395)

`usageDataPoints = []` is executed once per tick, before
`for account in config['accounts']:`, and the list is never cleared between
accounts; each account's `write` (lines 384-387) therefore submits the
whole accumulator as it stands.  The per-account `try`/`except` swallows
any exception.  Failures are modelled at the two stages that matter for the
write pattern: before the account's points are appended (an API fetch or
extraction error) or at the write call itself; the point payloads are
never inspected by the batching logic, so they are a type parameter. -/

structure TickAccount (α : Type) where
  name : String
  points : List α
  failsBeforeAppend : Bool
  failsAtWrite : Bool
deriving DecidableEq, Repr

/-- `ok a` iff no exception is raised while processing account `a`. -/
def TickAccount.ok {α : Type} (a : TickAccount α) : Bool :=
  !a.failsBeforeAppend && !a.failsAtWrite

/-- The account loop: `acc` is the shared `usageDataPoints` list; the
result is the sequence of database write calls (account name, batch). -/
def tickWrites {α : Type} : List (TickAccount α) → List α →
    List (String × List α)
  | [], _ => []
  | a :: rest, acc =>
    if a.failsBeforeAppend then tickWrites rest acc
    else
      if a.failsAtWrite then tickWrites rest (acc ++ a.points)
      else (a.name, acc ++ a.points) :: tickWrites rest (acc ++ a.points)

/-- One tick: the accumulator starts empty (line 320). -/
def runTick {α : Type} (accounts : List (TickAccount α)) :
    List (String × List α) :=
  tickWrites accounts []

/-- The polling loop across ticks: every tick runs to completion no matter
which accounts failed in it or in earlier ticks. -/
def runLoop {α : Type} (ticks : List (List (TickAccount α))) :
    List (List (String × List α)) :=
  ticks.map runTick

/-! ## Spec-side statements and concrete fixtures -/

/-- The condition of the claim's override case, in the claim's own words:
the account configuration contains a device whose name equals the resolved
device name with a channel-name list of length at least `n`. -/
def overrideMatches (a : Account) (deviceName : String) (n : Int) : Prop :=
  ∃ ds, a.devices = some ds ∧ ∃ d, d ∈ ds ∧ d.name = some deviceName ∧
    ∃ cs, d.channels = some cs ∧ n ≤ (cs.length : Int)

/-- Claim C6's trichotomy, transcribed with zero-based positions: (1) when
the channel number parses as an integer `n` and an override device matches,
the result is the override entry at position `n - 1`; (2) when it does not
parse and equals `"1,2,3"`, the bare device name; (3) in all other cases
`"{deviceName}-{channelNumber}"`. -/
def claimC6Spec (a : Account) (gid : Nat) (channel_num : String) : Prop :=
  (∀ n : Int, pyInt channel_num = some n →
      overrideMatches a (resolvedDeviceName a gid) n →
      ∃ ds, a.devices = some ds ∧ ∃ d, d ∈ ds ∧
        d.name = some (resolvedDeviceName a gid) ∧
        ∃ cs, d.channels = some cs ∧ ∃ i : Nat, (i : Int) = n - 1 ∧
          cs[i]? = some (lookupChannelName a gid channel_num)) ∧
  (pyInt channel_num = none → channel_num = "1,2,3" →
      lookupChannelName a gid channel_num = resolvedDeviceName a gid) ∧
  ((∀ n : Int, pyInt channel_num = some n →
        ¬ overrideMatches a (resolvedDeviceName a gid) n) →
      ¬ (pyInt channel_num = none ∧ channel_num = "1,2,3") →
      lookupChannelName a gid channel_num =
        resolvedDeviceName a gid ++ "-" ++ channel_num)

/-- A typical account: device 7 is cached as "Kitchen" and the user config
carries the override list `["Fridge", "Oven"]` for it. -/
def kitchenAccount : Account where
  name := "home"
  devices := some [⟨some "Kitchen", some ["Fridge", "Oven"]⟩]
  deviceIdMap := fun g => if g = 7 then some "Kitchen" else none
  populatedMap := fun g => if g = 7 then some "Kitchen" else none

/-- An account whose API knows no devices at all: every gid misses the
cache even after re-population. -/
def emptyAccount : Account where
  name := "bare"
  devices := none
  deviceIdMap := fun _ => none
  populatedMap := fun _ => none

/-! ## Calendar lemmas -/

theorem dayFloor_le (t : Int) : dayFloor t ≤ t := by
  simp only [dayFloor, daySecs]; omega

theorem dayEnd_mono {a b : Int} (h : a ≤ b) : dayEnd a ≤ dayEnd b := by
  simp only [dayEnd, dayFloor, daySecs]; omega

theorem dayFloor_dayEnd_add (x : Int) :
    dayFloor (dayEnd x + 86400) = dayEnd x + 1 := by
  simp only [dayFloor, dayEnd, daySecs]; omega

/-! ## Backfill window lemmas -/

theorem histWindows_first (stop : Int) (fuel : Nat) (start : Int)
    (w : Int × Int) (rest : List (Int × Int))
    (h : histWindows stop fuel start = w :: rest) : w.1 = start := by
  cases fuel with
  | zero => simp [histWindows] at h
  | succ fuel =>
    by_cases hs : start ≤ stop
    · rw [histWindows, if_pos hs] at h
      cases h
      rfl
    · rw [histWindows, if_neg hs] at h
      cases h

theorem histWindows_mem (stop : Int) :
    ∀ (fuel : Nat) (start : Int), ∀ w ∈ histWindows stop fuel start,
      w.2 ≤ dayEnd stop ∧ w.2 ≤ w.1 + (20 * 86400 + 86399)
  | 0, start => by simp [histWindows]
  | fuel + 1, start => by
    intro w hw
    by_cases hs : start ≤ stop
    · rw [histWindows, if_pos hs] at hw
      rcases List.mem_cons.mp hw with rfl | hw
      · refine ⟨dayEnd_mono (min_le_right _ _), ?_⟩
        simp only [dayEnd, dayFloor, daySecs]
        omega
      · exact histWindows_mem stop fuel _ w hw
    · rw [histWindows, if_neg hs] at hw
      cases hw

theorem histWindows_chain (stop : Int) :
    ∀ (fuel : Nat) (start : Int),
      List.Chain' (fun a b : Int × Int => b.1 = a.2 + 1)
        (histWindows stop fuel start)
  | 0, _ => by simp [histWindows]
  | fuel + 1, start => by
    by_cases hs : start ≤ stop
    · rw [histWindows, if_pos hs]
      refine List.chain'_cons'.mpr ⟨?_, histWindows_chain stop fuel _⟩
      intro b hb
      cases hlist : histWindows stop fuel
          (dayFloor (dayEnd (min (start + 20 * 86400) stop) + 86400)) with
      | nil => rw [hlist] at hb; simp at hb
      | cons x xs =>
        rw [hlist] at hb
        simp only [List.head?_cons, Option.mem_def, Option.some.injEq] at hb
        subst hb
        have h1 := histWindows_first stop fuel _ x xs hlist
        rw [h1, dayFloor_dayEnd_add]
    · rw [histWindows, if_neg hs]
      exact List.chain'_nil

/-- Claim C1 (amended): for every history backfill, consecutive collection
windows satisfy `next.start = prev.end + 1` (contiguous at one-second
granularity and non-overlapping); every window's span is at most 20 days
plus 86399 seconds (the end is pushed to 23:59:59 of its day *after* the
20-day cap is applied); and every window's end — the final one included —
is at most `dayEnd stopTime`, the end of the day containing the tick's
reference stop time `S` (it may exceed `S` itself). -/
theorem backfill_windows_spec (stopTime : Int) (historyDays fuel : Nat) :
    List.Chain' (fun a b : Int × Int => b.1 = a.2 + 1)
      (backfillWindows stopTime historyDays fuel) ∧
    ∀ w ∈ backfillWindows stopTime historyDays fuel,
      w.2 ≤ w.1 + (20 * 86400 + 86399) ∧ w.2 ≤ dayEnd stopTime :=
  ⟨histWindows_chain _ _ _, fun w hw =>
    ⟨(histWindows_mem _ _ _ w hw).2, (histWindows_mem _ _ _ w hw).1⟩⟩

/-- Claim C1 witness: the backfill of 45 days at stop time 3924000
(10:00:00 on day 45) produces windows whose first element satisfies both
amended bounds, by the amended theorem. -/
theorem backfill_windows_spec_witness :
    List.Chain' (fun a b : Int × Int => b.1 = a.2 + 1)
      (backfillWindows 3924000 45 10) ∧
    ((0 : Int), (1814399 : Int)).2 ≤
        ((0 : Int), (1814399 : Int)).1 + (20 * 86400 + 86399) ∧
    ((0 : Int), (1814399 : Int)).2 ≤ dayEnd 3924000 :=
  ⟨(backfill_windows_spec 3924000 45 10).1,
   (backfill_windows_spec 3924000 45 10).2 (0, 1814399) (by decide)⟩

/-- Claim C1 counterexample: a 45-day backfill at stop time 3924000
(= 45 days + 10 hours) yields three windows; the final window's end 3974399
(23:59:59 of the stop day) exceeds the reference stop time 3924000, and the
first window's span 1814399 seconds exceeds 20 days (1728000 seconds) —
both contradicting the claim as stated. -/
theorem backfill_windows_cex :
    backfillWindows 3924000 45 10 =
      [(0, 1814399), (1814400, 3628799), (3628800, 3974399)] ∧
    (3924000 : Int) < 3974399 ∧ (20 * 86400 : Int) < 1814399 - 0 := by
  refine ⟨by decide, by decide, by decide⟩

/-! ## Tick-loop lemmas -/

theorem tickWrites_spec {α : Type} :
    ∀ (accounts : List (TickAccount α)) (acc : List α),
      ((tickWrites accounts acc).map Prod.fst =
        (accounts.filter TickAccount.ok).map TickAccount.name) ∧
      ∀ w ∈ tickWrites accounts acc, ∃ a, a ∈ accounts ∧ a.ok = true ∧
        w.1 = a.name ∧ a.points <:+ w.2
  | [], acc => by simp [tickWrites]
  | a :: rest, acc => by
    by_cases h1 : a.failsBeforeAppend
    · have ih := tickWrites_spec rest acc
      have hok : a.ok = false := by simp [TickAccount.ok, h1]
      rw [tickWrites, if_pos h1]
      refine ⟨?_, ?_⟩
      · rw [ih.1, List.filter_cons, hok]
        simp
      · intro w hw
        obtain ⟨b, hb, hbok, hn, hs⟩ := ih.2 w hw
        exact ⟨b, List.mem_cons_of_mem _ hb, hbok, hn, hs⟩
    · by_cases h2 : a.failsAtWrite
      · have ih := tickWrites_spec rest (acc ++ a.points)
        have hok : a.ok = false := by simp [TickAccount.ok, h2]
        rw [tickWrites, if_neg h1, if_pos h2]
        refine ⟨?_, ?_⟩
        · rw [ih.1, List.filter_cons, hok]
          simp
        · intro w hw
          obtain ⟨b, hb, hbok, hn, hs⟩ := ih.2 w hw
          exact ⟨b, List.mem_cons_of_mem _ hb, hbok, hn, hs⟩
      · have ih := tickWrites_spec rest (acc ++ a.points)
        have hok : a.ok = true := by simp [TickAccount.ok, h1, h2]
        rw [tickWrites, if_neg h1, if_neg h2]
        refine ⟨?_, ?_⟩
        · rw [List.map_cons, ih.1, List.filter_cons, hok]
          simp
        · intro w hw
          rcases List.mem_cons.mp hw with rfl | hw
          · exact ⟨a, List.mem_cons_self a rest, hok, rfl,
              List.suffix_append acc a.points⟩
          · obtain ⟨b, hb, hbok, hn, hs⟩ := ih.2 w hw
            exact ⟨b, List.mem_cons_of_mem _ hb, hbok, hn, hs⟩

/-- Claim C4: the per-account `try`/`except` swallows any exception raised
while processing one account (modelled at the fetch/extraction stage and at
the write stage), so the write calls of a tick are exactly one per
non-failing account, in configuration order, each batch ending with that
account's own points — in particular accounts after a failing one are still
processed and written in the same tick — and the polling loop runs every
tick to completion regardless of failures. -/
theorem tick_failure_isolation {α : Type} (accounts : List (TickAccount α))
    (ticks : List (List (TickAccount α))) :
    ((runTick accounts).map Prod.fst =
      (accounts.filter TickAccount.ok).map TickAccount.name) ∧
    (∀ w ∈ runTick accounts, ∃ a, a ∈ accounts ∧ a.ok = true ∧
      w.1 = a.name ∧ a.points <:+ w.2) ∧
    (runLoop ticks).length = ticks.length :=
  ⟨(tickWrites_spec accounts []).1, (tickWrites_spec accounts []).2,
    by simp [runLoop]⟩

/-- The spec's scenario for claim C4: three accounts, the second of which
raises an API error during its fetch. -/
def demoTickAccounts : List (TickAccount String) :=
  [⟨"acct1", ["p1"], false, false⟩, ⟨"acct2", ["p2"], true, false⟩,
   ⟨"acct3", ["p3"], false, false⟩]

/-- Claim C4 witness: with the failing second account, accounts 1 and 3 are
still written in the same tick, by the theorem applied to the scenario. -/
theorem tick_failure_isolation_witness :
    ((runTick demoTickAccounts).map Prod.fst = ["acct1", "acct3"]) ∧
    (∃ a, a ∈ demoTickAccounts ∧ a.ok = true ∧
      (("acct3", ["p1", "p3"]) : String × List String).1 = a.name ∧
      a.points <:+ ["p1", "p3"]) := by
  refine ⟨?_, ?_⟩
  · exact ((tick_failure_isolation demoTickAccounts []).1).trans (by decide)
  · exact (tick_failure_isolation demoTickAccounts []).2.1
      ("acct3", ["p1", "p3"]) (by decide)

/-- Claim C2 (code bug): `usageDataPoints` is created once per tick
(line 320) and shared across the account loop, so with two healthy
accounts the second account's write call submits the first account's
points again: the batches are cumulative, not per-account.  The claim's
"exactly one write per account" does hold on this failure-free input, but
the isolation of batch contents does not. -/
theorem tick_write_mixes_accounts :
    runTick [(⟨"acct1", ["p1"], false, false⟩ : TickAccount String),
             ⟨"acct2", ["p2"], false, false⟩] =
      [("acct1", ["p1"]), ("acct2", ["p1", "p2"])] ∧
    "p1" ∈ (["p1", "p2"] : List String) ∧
    "p1" ∉ (["p2"] : List String) :=
  ⟨by decide, by decide, by decide⟩

/-! ## Series-loop lemmas

Each emission loop is characterised positionally: its `j`-th point comes
from the `j`-th non-null entry of the input series (nulls are skipped and —
because `index += 1` sits after the `continue` — the timestamp index is the
count of non-null entries already emitted, not the input position). -/

theorem secondsLoop_at (a c : String) (s : Int) :
    ∀ (series : List (Option ℚ)) (k j : Nat),
      (secondsLoop a c s series k)[j]? =
        ((series.filterMap id)[j]?).map
          (fun u => createDataPoint a c (60 * 60 * 1000 * u)
            (some (s + ((k + j : Nat) : Int))) (DetailTag.tagOfBool true))
  | [], k, j => by simp [secondsLoop]
  | none :: rest, k, j => by
      rw [secondsLoop]
      simpa using secondsLoop_at a c s rest k j
  | some u :: rest, k, j => by
      rw [secondsLoop]
      cases j with
      | zero => simp
      | succ j =>
        rw [List.getElem?_cons_succ, secondsLoop_at a c s rest (k + 1) j,
          show k + 1 + j = k + (j + 1) from by omega]
        simp [List.filterMap_cons]

theorem hoursLoop_at (a c : String) (h0 : Int) :
    ∀ (series : List (Option ℚ)) (k j : Nat),
      (hoursLoop a c h0 series k)[j]? =
        ((series.filterMap id)[j]?).map
          (fun u => createDataPoint a c (u * 1000)
            (some (h0 + 3600 * ((k + j : Nat) : Int)))
            (DetailTag.tagOfStr "Hour"))
  | [], k, j => by simp [hoursLoop]
  | none :: rest, k, j => by
      rw [hoursLoop]
      simpa using hoursLoop_at a c h0 rest k j
  | some u :: rest, k, j => by
      rw [hoursLoop]
      cases j with
      | zero => simp
      | succ j =>
        rw [List.getElem?_cons_succ, hoursLoop_at a c h0 rest (k + 1) j,
          show k + 1 + j = k + (j + 1) from by omega]
        simp [List.filterMap_cons]

theorem daysLoop_at (a c : String) (h0 : Int) :
    ∀ (series : List (Option ℚ)) (k j : Nat),
      (daysLoop a c h0 series k)[j]? =
        ((series.filterMap id)[j]?).map
          (fun u => createDataPoint a c (u * 1000)
            (some (dayEnd (h0 + 86400 * (((k + j : Nat) : Int) - 1))))
            (DetailTag.tagOfStr "Day"))
  | [], k, j => by simp [daysLoop]
  | none :: rest, k, j => by
      rw [daysLoop]
      simpa using daysLoop_at a c h0 rest k j
  | some u :: rest, k, j => by
      rw [daysLoop]
      cases j with
      | zero => simp
      | succ j =>
        rw [List.getElem?_cons_succ, daysLoop_at a c h0 rest (k + 1) j,
          show k + 1 + j = k + (j + 1) from by omega]
        simp [List.filterMap_cons]

theorem secondsLoop_length (a c : String) (s : Int) :
    ∀ (series : List (Option ℚ)) (k : Nat),
      (secondsLoop a c s series k).length = (series.filterMap id).length
  | [], _ => by simp [secondsLoop]
  | none :: rest, k => by
      rw [secondsLoop]
      simpa using secondsLoop_length a c s rest k
  | some u :: rest, k => by
      rw [secondsLoop]
      simpa [List.filterMap_cons] using secondsLoop_length a c s rest (k + 1)

theorem hoursLoop_length (a c : String) (h0 : Int) :
    ∀ (series : List (Option ℚ)) (k : Nat),
      (hoursLoop a c h0 series k).length = (series.filterMap id).length
  | [], _ => by simp [hoursLoop]
  | none :: rest, k => by
      rw [hoursLoop]
      simpa using hoursLoop_length a c h0 rest k
  | some u :: rest, k => by
      rw [hoursLoop]
      simpa [List.filterMap_cons] using hoursLoop_length a c h0 rest (k + 1)

theorem daysLoop_length (a c : String) (h0 : Int) :
    ∀ (series : List (Option ℚ)) (k : Nat),
      (daysLoop a c h0 series k).length = (series.filterMap id).length
  | [], _ => by simp [daysLoop]
  | none :: rest, k => by
      rw [daysLoop]
      simpa using daysLoop_length a c h0 rest k
  | some u :: rest, k => by
      rw [daysLoop]
      simpa [List.filterMap_cons] using daysLoop_length a c h0 rest (k + 1)

theorem filterMap_id_length_lt (series : List (Option ℚ))
    (h : none ∈ series) : (series.filterMap id).length < series.length := by
  induction series with
  | nil => cases h
  | cons x rest ih =>
    cases x with
    | none =>
      have := List.length_filterMap_le (id : Option ℚ → Option ℚ) rest
      simp only [List.filterMap_cons, id, List.length_cons]
      omega
    | some u =>
      have hr : none ∈ rest := by
        rcases List.mem_cons.mp h with h' | h'
        · exact absurd h' (by simp)
        · exact h'
      have := ih hr
      simp only [List.filterMap_cons, id, List.length_cons]
      omega

/-- Claim C3 counterexample: run the seconds loop on the series
`[null, 1 kWh]` with detail start 1000.  The single emitted point — the one
for the non-null entry at zero-based input index 1 — carries timestamp
`1000 + 0`, because a skipped null does not advance `index`; the claim
demands `1000 + 1`. -/
theorem seconds_index_cex :
    secondsLoop "home" "chan" 1000 [none, some 1] 0 =
      [createDataPoint "home" "chan" 3600000 (some 1000)
        (DetailTag.tagOfBool true)] ∧
    (1000 : Int) ≠ 1000 + 1 := by
  constructor
  · norm_num [secondsLoop, createDataPoint]
  · decide

/-- Claim C3 (amended): the point emitted for the `j`-th *non-null* entry
of a seconds-detail series (zero-based among non-null entries) has
timestamp `detailStart + j` — that is, the detail start plus the number of
non-null entries before it, which equals the input index only when no null
precedes — watts = usage × 3600 × 1000, and detail-kind `true`. -/
theorem seconds_points_spec (a c : String) (s : Int)
    (series : List (Option ℚ)) (j : Nat) :
    (secondsLoop a c s series 0)[j]? =
      ((series.filterMap id)[j]?).map
        (fun u => createDataPoint a c (u * 3600 * 1000) (some (s + (j : Int)))
          (DetailTag.tagOfBool true)) := by
  rw [secondsLoop_at]
  cases h : (series.filterMap id)[j]? with
  | none => simp
  | some v =>
    simp only [Option.map_some', Option.some.injEq, createDataPoint,
      DataPoint.mk.injEq, true_and, Nat.zero_add, and_true]
    ring

/-- Claim C5: for every non-null kWh value `u`, a live point (no point
type) carries `u * 60 * 1000` watts, an `'Hour'`/`'Day'` aggregate rollup
point carries `u * 1000` watts, a historical hourly or daily chart-series
point carries `u * 1000` watts, and a seconds-detail point carries
`u * 3600 * 1000` watts. -/
theorem watt_conversion_spec (a c : String) (u : ℚ) (stop s h0 : Int)
    (hs : Option Int) (series : List (Option ℚ)) (j : Nat) :
    aggPoints a c stop none hs (some u) =
      [createDataPoint a c (u * 60 * 1000) (some stop)
        (DetailTag.tagOfBool false)] ∧
    (∀ pt : String, pt = "Hour" ∨ pt = "Day" →
      aggPoints a c stop (some pt) hs (some u) =
        [createDataPoint a c (u * 1000) hs (DetailTag.tagOfStr pt)]) ∧
    ((secondsLoop a c s series 0)[j]?).map DataPoint.usage =
      ((series.filterMap id)[j]?).map (fun v => v * 3600 * 1000) ∧
    ((hoursLoop a c h0 series 0)[j]?).map DataPoint.usage =
      ((series.filterMap id)[j]?).map (fun v => v * 1000) ∧
    ((daysLoop a c h0 series 0)[j]?).map DataPoint.usage =
      ((series.filterMap id)[j]?).map (fun v => v * 1000) := by
  refine ⟨?_, ?_, ?_, ?_, ?_⟩
  · simp only [aggPoints, createDataPoint, List.cons.injEq, and_true,
      DataPoint.mk.injEq, true_and]
    ring
  · rintro pt (rfl | rfl) <;> simp [aggPoints]
  · rw [secondsLoop_at]
    cases h : (series.filterMap id)[j]? with
    | none => simp
    | some v =>
      simp [createDataPoint]
      ring
  · rw [hoursLoop_at]
    cases h : (series.filterMap id)[j]? with
    | none => simp
    | some v => simp [createDataPoint]
  · rw [daysLoop_at]
    cases h : (series.filterMap id)[j]? with
    | none => simp
    | some v => simp [createDataPoint]

/-- Claim C5 witness: the conversions at `u = 1/2` kWh — live
`1/2 * 60 * 1000 = 30000` watts, hourly rollup `1/2 * 1000 = 500` watts —
by the theorem applied at that input. -/
theorem watt_conversion_spec_witness :
    aggPoints "home" "chan" 0 none (some 0) (some (1 / 2)) =
      [createDataPoint "home" "chan" ((1 / 2 : ℚ) * 60 * 1000) (some 0)
        (DetailTag.tagOfBool false)] ∧
    aggPoints "home" "chan" 0 (some "Hour") (some 0) (some (1 / 2)) =
      [createDataPoint "home" "chan" ((1 / 2 : ℚ) * 1000) (some 0)
        (DetailTag.tagOfStr "Hour")] :=
  ⟨(watt_conversion_spec "home" "chan" (1 / 2) 0 0 0 (some 0) [] 0).1,
   (watt_conversion_spec "home" "chan" (1 / 2) 0 0 0 (some 0) [] 0).2.1
     "Hour" (Or.inl rfl)⟩

/-- Claim C7: a null usage entry never produces a point and extraction is
total (never raises) on missing data: every emission loop yields at most
one point per series entry, strictly fewer when the series contains a
null, and a null aggregate usage yields no aggregate point. -/
theorem null_skip_spec (a c : String) (s h0 stop : Int) (hs : Option Int)
    (pt : Option String) (series : List (Option ℚ)) :
    ((secondsLoop a c s series 0).length ≤ series.length ∧
      (none ∈ series →
        (secondsLoop a c s series 0).length < series.length)) ∧
    ((hoursLoop a c h0 series 0).length ≤ series.length ∧
      (none ∈ series →
        (hoursLoop a c h0 series 0).length < series.length)) ∧
    ((daysLoop a c h0 series 0).length ≤ series.length ∧
      (none ∈ series →
        (daysLoop a c h0 series 0).length < series.length)) ∧
    aggPoints a c stop pt hs none = [] := by
  refine ⟨⟨?_, fun h => ?_⟩, ⟨?_, fun h => ?_⟩, ⟨?_, fun h => ?_⟩, rfl⟩
  · rw [secondsLoop_length]
    exact List.length_filterMap_le _ _
  · rw [secondsLoop_length]
    exact filterMap_id_length_lt series h
  · rw [hoursLoop_length]
    exact List.length_filterMap_le _ _
  · rw [hoursLoop_length]
    exact filterMap_id_length_lt series h
  · rw [daysLoop_length]
    exact List.length_filterMap_le _ _
  · rw [daysLoop_length]
    exact filterMap_id_length_lt series h

/-- Claim C7 witness: on the two-entry series `[null, 1]` the seconds loop
emits strictly fewer points than entries, and a null aggregate usage emits
nothing, by the theorem. -/
theorem null_skip_spec_witness :
    (secondsLoop "home" "chan" 0 [none, some 1] 0).length <
      ([none, some (1 : ℚ)] : List (Option ℚ)).length ∧
    aggPoints "home" "chan" 0 none none none = [] :=
  ⟨(null_skip_spec "home" "chan" 0 0 0 none none [none, some 1]).1.2
      (by decide),
   (null_skip_spec "home" "chan" 0 0 0 none none [none, some 1]).2.2.2⟩

/-- A context with detail collection enabled and due, over the Kitchen
account, whose chart oracle always has data to hand out — so any missing
query/point below is missing because of the exclusion guard, not for lack
of data. -/
def demoCtx : ExtractCtx where
  account := kitchenAccount
  stopTime := 500
  detailedStartTime := 100
  collectDetails := true
  detailedSecondsEnabled := true
  chartUsage := fun _ _ _ _ _ => [some 1, some 1]

/-- Claim C8: a channel whose number is `'Balance'` or `'TotalUsage'` still
yields its aggregate live point when its usage is non-null, but no
seconds-detail chart query is ever issued for it (and hence no detail
point), even when detail collection is enabled and due — the context is
arbitrary, in particular `collectDetails` and `detailedSecondsEnabled` may
both hold. -/
theorem excluded_channel_live_spec (ctx : ExtractCtx) (gid : Nat)
    (num : String) (u : ℚ)
    (hnum : num ∈ excludedDetailChannelNumbers) :
    channelCollect ctx none none none gid num (some u) =
      ([], [createDataPoint ctx.account.name
        (lookupChannelName ctx.account gid num) (60 * 1000 * u)
        (some ctx.stopTime) (DetailTag.tagOfBool false)]) := by
  simp [channelCollect, aggPoints, hnum]

/-- Claim C8 witness: the spec's scenario channel `'Balance'` with usage
0.1 kWh on a live tick with details due yields exactly one live point of
6000 watts and no chart query, by the theorem. -/
theorem excluded_channel_live_spec_witness :
    channelCollect demoCtx none none none 7 "Balance" (some (1 / 10)) =
      ([], [createDataPoint "home" "Kitchen-Balance" 6000 (some 500)
        (DetailTag.tagOfBool false)]) := by
  rw [excluded_channel_live_spec demoCtx 7 "Balance" (1 / 10) (by decide)]
  have h1 : lookupChannelName demoCtx.account 7 "Balance" =
      "Kitchen-Balance" := by decide
  have h2 : demoCtx.account.name = "home" := by decide
  rw [h1, h2]
  norm_num [createDataPoint, demoCtx]

/-- Claim C9: the `continue` for an excluded channel number sits before the
historical chart block as well, so during a historical window (`'History'`
point type, both window bounds given) an excluded channel yields no points
at all — in particular no per-channel `'Hour'` or `'Day'` chart-series
points — and no chart query of any scale is issued for it in any call
shape. -/
theorem excluded_channel_history_spec (ctx : ExtractCtx) (gid : Nat)
    (num : String) (u? : Option ℚ) (pt : Option String)
    (hs he : Option Int) (h0 h1 : Int)
    (hnum : num ∈ excludedDetailChannelNumbers) :
    (channelCollect ctx pt hs he gid num u?).1 = [] ∧
    channelCollect ctx (some "History") (some h0) (some h1) gid num u? =
      ([], []) := by
  constructor
  · simp [channelCollect, hnum]
  · cases u? with
    | none => simp [channelCollect, aggPoints, hnum]
    | some u => simp [channelCollect, aggPoints, hnum]

/-- Claim C9 witness: the `'TotalUsage'` channel with usage 2 kWh inside a
one-day historical window produces no queries and no points, by the
theorem. -/
theorem excluded_channel_history_spec_witness :
    channelCollect demoCtx (some "History") (some 0) (some 86400) 7
      "TotalUsage" (some 2) = ([], []) :=
  (excluded_channel_history_spec demoCtx 7 "TotalUsage" (some 2)
    (some "History") (some 0) (some 86400) 0 86400 (by decide)).2

/-! ## Override-search lemmas -/

theorem findOverrideList_sound (deviceName : String) (num : Int)
    (ds : List ConfigDevice) (cs : List String)
    (h : findOverrideList ds deviceName num = some cs) :
    ∃ d, d ∈ ds ∧ d.name = some deviceName ∧ d.channels = some cs ∧
      num ≤ (cs.length : Int) := by
  induction ds with
  | nil => exact absurd h (by simp [findOverrideList])
  | cons d rest ih =>
    obtain ⟨dn, dc⟩ := d
    rcases dn with _ | n
    · have h' : findOverrideList rest deviceName num = some cs := h
      obtain ⟨e, he, p1, p2, p3⟩ := ih h'
      exact ⟨e, List.mem_cons_of_mem _ he, p1, p2, p3⟩
    · rcases dc with _ | cs0
      · have h' : findOverrideList rest deviceName num = some cs := h
        obtain ⟨e, he, p1, p2, p3⟩ := ih h'
        exact ⟨e, List.mem_cons_of_mem _ he, p1, p2, p3⟩
      · have h' : (if n = deviceName ∧ num ≤ (cs0.length : Int)
            then some cs0
            else findOverrideList rest deviceName num) = some cs := h
        by_cases hcond : n = deviceName ∧ num ≤ (cs0.length : Int)
        · rw [if_pos hcond] at h'
          injection h' with h'
          subst h'
          exact ⟨⟨some n, some cs0⟩, List.mem_cons_self _ _,
            by simp [hcond.1], rfl, hcond.2⟩
        · rw [if_neg hcond] at h'
          obtain ⟨e, he, p1, p2, p3⟩ := ih h'
          exact ⟨e, List.mem_cons_of_mem _ he, p1, p2, p3⟩

theorem findOverrideList_complete (deviceName : String) (num : Int)
    (ds : List ConfigDevice)
    (h : ∃ d, d ∈ ds ∧ d.name = some deviceName ∧
      ∃ cs, d.channels = some cs ∧ num ≤ (cs.length : Int)) :
    ∃ cs, findOverrideList ds deviceName num = some cs := by
  induction ds with
  | nil => simp at h
  | cons d rest ih =>
    obtain ⟨e, he, hn, cs, hc, hlen⟩ := h
    obtain ⟨dn, dc⟩ := d
    rcases dn with _ | n
    · rcases List.mem_cons.mp he with rfl | he'
      · simp at hn
      · exact ih ⟨e, he', hn, cs, hc, hlen⟩
    · rcases dc with _ | cs0
      · rcases List.mem_cons.mp he with rfl | he'
        · simp at hc
        · exact ih ⟨e, he', hn, cs, hc, hlen⟩
      · by_cases hcond : n = deviceName ∧ num ≤ (cs0.length : Int)
        · refine ⟨cs0, ?_⟩
          show (if n = deviceName ∧ num ≤ (cs0.length : Int) then some cs0
            else findOverrideList rest deviceName num) = some cs0
          rw [if_pos hcond]
        · rcases List.mem_cons.mp he with rfl | he'
          · refine absurd ⟨?_, ?_⟩ hcond
            · have : some n = some deviceName := hn
              injection this
            · have : some cs0 = some cs := hc
              injection this with this
              rw [this]
              exact hlen
          · obtain ⟨cs1, hcs1⟩ := ih ⟨e, he', hn, cs, hc, hlen⟩
            refine ⟨cs1, ?_⟩
            show (if n = deviceName ∧ num ≤ (cs0.length : Int) then some cs0
              else findOverrideList rest deviceName num) = some cs1
            rw [if_neg hcond]
            exact hcs1

/-- Shared base-name case: when no override matches and the composite case
does not apply, `lookupChannelName` returns
`"{deviceName}-{channelNumber}"`. -/
theorem lookupChannelName_base (a : Account) (gid : Nat)
    (channel_num : String)
    (hno : ∀ n : Int, pyInt channel_num = some n →
      ¬ overrideMatches a (resolvedDeviceName a gid) n)
    (hne : ¬ (pyInt channel_num = none ∧ channel_num = "1,2,3")) :
    lookupChannelName a gid channel_num =
      resolvedDeviceName a gid ++ "-" ++ channel_num := by
  cases hp : pyInt channel_num with
  | none =>
    have hneq : channel_num ≠ "1,2,3" := fun heq => hne ⟨hp, heq⟩
    simp [lookupChannelName, hp, hneq]
  | some n =>
    cases hds : a.devices with
    | none => simp [lookupChannelName, hp, hds]
    | some ds =>
      cases hfind : findOverrideList ds (resolvedDeviceName a gid) n with
      | none => simp [lookupChannelName, hp, hds, hfind]
      | some cs =>
        obtain ⟨e, he, p1, p2, p3⟩ :=
          findOverrideList_sound (resolvedDeviceName a gid) n ds cs hfind
        exact absurd ⟨ds, hds, e, he, p1, cs, p2, p3⟩ (hno n hp)

/-- Claim C6 (amended): the claimed trichotomy holds for channel numbers
that parse as a *positive* integer `n`, for the composite `"1,2,3"`, and
for the fallback; but for a non-positive parsed integer `n` (where the
claimed override condition `len ≥ n` holds vacuously) the source applies
Python end-relative indexing to `channels[n - 1]`: the entry at Python
index `n - 1` of the first matching override list when that index is in
range, and the base `"{deviceName}-{channelNumber}"` when the resulting
`IndexError` is swallowed by the bare `except`. -/
theorem channel_name_trichotomy (a : Account) (gid : Nat)
    (channel_num : String) :
    (∀ n : Int, pyInt channel_num = some n → 1 ≤ n →
      overrideMatches a (resolvedDeviceName a gid) n →
      ∃ ds, a.devices = some ds ∧ ∃ d, d ∈ ds ∧
        d.name = some (resolvedDeviceName a gid) ∧
        ∃ cs, d.channels = some cs ∧
          cs[(n - 1).toNat]? = some (lookupChannelName a gid channel_num)) ∧
    (pyInt channel_num = none → channel_num = "1,2,3" →
      lookupChannelName a gid channel_num = resolvedDeviceName a gid) ∧
    ((∀ n : Int, pyInt channel_num = some n →
        ¬ overrideMatches a (resolvedDeviceName a gid) n) →
      ¬ (pyInt channel_num = none ∧ channel_num = "1,2,3") →
      lookupChannelName a gid channel_num =
        resolvedDeviceName a gid ++ "-" ++ channel_num) ∧
    (∀ n : Int, pyInt channel_num = some n → n ≤ 0 →
      ∀ ds, a.devices = some ds →
      ∀ cs, findOverrideList ds (resolvedDeviceName a gid) n = some cs →
        lookupChannelName a gid channel_num =
          (pyIndex cs (n - 1)).getD
            (resolvedDeviceName a gid ++ "-" ++ channel_num)) := by
  refine ⟨?_, ?_, lookupChannelName_base a gid channel_num, ?_⟩
  · intro n hp h1 hm
    obtain ⟨ds, hds, e, he, hname, csw, hchan, hlen⟩ := hm
    obtain ⟨cs0, hfind⟩ := findOverrideList_complete _ n ds
      ⟨e, he, hname, csw, hchan, hlen⟩
    obtain ⟨e0, he0, q1, q2, q3⟩ := findOverrideList_sound _ n ds cs0 hfind
    have hidx : (n - 1).toNat < cs0.length := by omega
    have hpy : pyIndex cs0 (n - 1) = some (cs0[(n - 1).toNat]) := by
      rw [pyIndex, if_pos (by omega : (0 : Int) ≤ n - 1)]
      exact List.getElem?_eq_getElem hidx
    refine ⟨ds, hds, e0, he0, q1, cs0, q2, ?_⟩
    have hlook : lookupChannelName a gid channel_num =
        cs0[(n - 1).toNat] := by
      simp [lookupChannelName, hp, hds, hfind, hpy]
    rw [hlook]
    exact List.getElem?_eq_getElem hidx
  · intro hp heq
    subst heq
    simp [lookupChannelName, hp]
  · intro n hp hn0 ds hds cs hfind
    simp [lookupChannelName, hp, hds, hfind]

/-- Claim C6 witness: on the Kitchen account, channel `"1"` resolves
through the override list, by the amended theorem's positive-integer case
applied at `n = 1`. -/
theorem channel_name_trichotomy_witness :
    ∃ ds, kitchenAccount.devices = some ds ∧ ∃ d, d ∈ ds ∧
      d.name = some (resolvedDeviceName kitchenAccount 7) ∧
      ∃ cs, d.channels = some cs ∧
        cs[((1 : Int) - 1).toNat]? =
          some (lookupChannelName kitchenAccount 7 "1") :=
  (channel_name_trichotomy kitchenAccount 7 "1").1 1 (by decide) (by decide)
    ⟨[⟨some "Kitchen", some ["Fridge", "Oven"]⟩], rfl,
     ⟨some "Kitchen", some ["Fridge", "Oven"]⟩, List.mem_cons_self _ _,
     by decide, ["Fridge", "Oven"], rfl, by decide⟩

/-- Claim C6 counterexample: channel number `"0"` parses as the integer 0,
and the override condition of the claim's first case (`length ≥ 0`) holds
on the Kitchen account, yet there is no zero-based position `0 - 1 = -1`:
the source instead returns `"Oven"` via Python's end-relative
`channels[-1]`, so the trichotomy as stated is false at this input. -/
theorem channel_name_trichotomy_cex :
    lookupChannelName kitchenAccount 7 "0" = "Oven" ∧
    ¬ claimC6Spec kitchenAccount 7 "0" := by
  refine ⟨by decide, fun h => ?_⟩
  obtain ⟨ds, hds, d, hd, hname, cs, hcs, i, hi, _⟩ :=
    h.1 0 (by decide)
      ⟨[⟨some "Kitchen", some ["Fridge", "Oven"]⟩], rfl,
       ⟨some "Kitchen", some ["Fridge", "Oven"]⟩, List.mem_cons_self _ _,
       by decide, ["Fridge", "Oven"], rfl, by decide⟩
  omega

/-- Claim C10 (amended): for a device id absent from the cache even after
the re-population triggered by the miss, `lookupDeviceName` returns the
decimal string of the id and never raises (it is total); channel names for
such a device are `"{gid}-{channelNumber}"` *provided* the channel number
is not the composite `"1,2,3"` (which instead collapses to `"{gid}"`) and
no configured override list matches the device name `"{gid}"`. -/
theorem unknown_device_name_spec (a : Account) (gid : Nat)
    (channel_num : String) (h1 : a.deviceIdMap gid = none)
    (h2 : a.populatedMap gid = none) :
    lookupDeviceName a gid = toString gid ∧
    resolvedDeviceName a gid = toString gid ∧
    (channel_num ≠ "1,2,3" →
      (∀ n : Int, pyInt channel_num = some n →
        ¬ overrideMatches a (toString gid) n) →
      lookupChannelName a gid channel_num =
        toString gid ++ "-" ++ channel_num) := by
  have hmap : mapAfterMiss a gid gid = none := by
    rw [mapAfterMiss, if_pos (by rw [h1]; rfl)]
    exact h2
  have hdev : lookupDeviceName a gid = toString gid := by
    rw [lookupDeviceName, hmap]
  have hres : resolvedDeviceName a gid = toString gid := by
    rw [resolvedDeviceName, lookupDeviceName]
    have : mapAfterMiss { a with deviceIdMap := mapAfterMiss a gid } gid gid
        = none := by
      rw [mapAfterMiss]
      by_cases hc : (({ a with deviceIdMap := mapAfterMiss a gid } :
          Account).deviceIdMap gid).isNone
      · rw [if_pos hc]
        exact h2
      · rw [if_neg hc]
        exact hmap
    rw [this]
  refine ⟨hdev, hres, fun hne hno => ?_⟩
  have := lookupChannelName_base a gid channel_num
    (by rw [hres]; exact hno) (fun hand => hne hand.2)
  rw [hres] at this
  exact this

/-- Claim C10 witness: on an account whose API returns no devices, device
id 5 resolves to `"5"` and channel `"Balance"` to `"5-Balance"`, by the
amended theorem. -/
theorem unknown_device_name_spec_witness :
    lookupDeviceName emptyAccount 5 = toString 5 ∧
    lookupChannelName emptyAccount 5 "Balance" =
      toString 5 ++ "-" ++ "Balance" :=
  ⟨(unknown_device_name_spec emptyAccount 5 "Balance" rfl rfl).1,
   (unknown_device_name_spec emptyAccount 5 "Balance" rfl rfl).2.2
     (by decide)
     (fun n hn => by
       rw [show pyInt "Balance" = none from by decide] at hn
       exact Option.noConfusion hn)⟩

/-- Claim C10 counterexample: on the device-less account, device id 5
resolves to `"5"` as claimed, but the composite channel `"1,2,3"` of that
unknown device resolves to `"5"`, not to the claimed
`"{gid}-{channelNumber}"` form `"5-1,2,3"`. -/
theorem unknown_device_composite_cex :
    lookupDeviceName emptyAccount 5 = "5" ∧
    lookupChannelName emptyAccount 5 "1,2,3" = "5" ∧
    ("5" : String) ≠ "5" ++ "-" ++ "1,2,3" :=
  ⟨by decide, by decide, by decide⟩
